import Mathlib

/-!
Shallow embedding of the gameplay core of the bevy-santa-demo game
(src/main.rs) and verification of its specification.

Modelling conventions:
* `f32` coordinates, radii, speeds and elapsed times are embedded as exact
  rationals (`ℚ`); square roots (Euclidean distance, vector normalisation)
  land in `ℝ` via `Real.sqrt`.
* `u32` counters (`Score`, `Lives`) are embedded as `ℕ` with explicit
  wrap-around `% 2 ^ 32` where the source performs `u32` arithmetic.
* Bevy ECS queries over entities become explicit lists; events become lists
  of entity identifiers (`ℕ`); resources become explicit arguments and
  results.
* A `run_if (resource_changed)` gate becomes an explicit `Bool` argument.
-/

namespace SantaDemo

/-- FREE_ZONE from src/main.rs: radius around the screen center where
automovers cannot spawn. -/
def FREE_ZONE : ℚ := 200

/-- An automoving entity: `Transform` translation plus the `AutoMoving`
direction component, as in src/main.rs. -/
structure AutoMover where
  pos : ℚ × ℚ
  dir : ℚ × ℚ
  deriving DecidableEq

/-- The per-automover update in `automoving_system` (src/main.rs lines
111-121): `translation += direction * speed * delta_secs`, on each axis. -/
def automovingStep (speed dt : ℚ) (m : AutoMover) : AutoMover :=
  { m with pos := (m.pos.1 + m.dir.1 * speed * dt, m.pos.2 + m.dir.2 * speed * dt) }

/-- `automoving_system` (src/main.rs lines 111-121): applies the movement
update to every automover in the query. -/
def automoving_system (speed dt : ℚ) (ms : List AutoMover) : List AutoMover :=
  ms.map (automovingStep speed dt)

/-- The per-automover update in `bounce_automovers_system` (src/main.rs lines
124-146): negate a direction component when the position reaches the
corresponding screen edge (`half_size = 32 / 2`). -/
def bounceStep (width height : ℚ) (m : AutoMover) : AutoMover :=
  let x := m.pos.1
  let y := m.pos.2
  let dx := if x - 32 / 2 ≤ 0 ∨ x + 32 / 2 ≥ width then -m.dir.1 else m.dir.1
  let dy := if y - 32 / 2 ≤ 0 ∨ y + 32 / 2 ≥ height then -m.dir.2 else m.dir.2
  { m with dir := (dx, dy) }

/-- `bounce_automovers_system` (src/main.rs lines 124-146): applies the
bounce update to every automover in the query. -/
def bounce_automovers_system (width height : ℚ) (ms : List AutoMover) : List AutoMover :=
  ms.map (bounceStep width height)

/-- Held state of the eight direction-bound keys read by
`move_santa_system` (src/main.rs lines 183-198). -/
structure KeyState where
  arrowLeft : Bool
  keyJ : Bool
  arrowRight : Bool
  keyL : Bool
  arrowUp : Bool
  keyI : Bool
  arrowDown : Bool
  keyK : Bool
  deriving DecidableEq

/-- `move_santa_system` (src/main.rs lines 170-203): for each held
direction the player moves by `speed * delta_secs`, guarded by a check on
the CURRENT coordinate against the half-extent bound (`32 / 2`) on the
side being moved toward.  The four branches run in source order: left,
right, up, down; the later branch of an axis sees the coordinate already
updated by the earlier one. -/
def move_santa_system (width height speed dt : ℚ) (keys : KeyState) (p : ℚ × ℚ) : ℚ × ℚ :=
  let x0 := p.1
  let y0 := p.2
  let x1 := if (keys.arrowLeft || keys.keyJ) ∧ x0 > 32 / 2 then x0 - speed * dt else x0
  let x2 := if (keys.arrowRight || keys.keyL) ∧ x1 < width - 32 / 2 then x1 + speed * dt else x1
  let y1 := if (keys.arrowUp || keys.keyI) ∧ y0 < height - 32 / 2 then y0 + speed * dt else y0
  let y2 := if (keys.arrowDown || keys.keyK) ∧ y1 > 32 / 2 then y1 - speed * dt else y1
  (x2, y2)

/-- An entity carrying a `Transform` and a `ColliderCircle`, as queried by
`detect_collisions_system` (src/main.rs lines 232-246). -/
structure Obj where
  entity : ℕ
  pos : ℚ × ℚ
  radius : ℚ
  deriving DecidableEq

/-- Collision test of `detect_collisions_system` (src/main.rs line 242):
`object_position.distance(santa_position) < (santa_radius + object_radius) * 1.7`,
where `Vec2::distance` is the square root of the sum of squared coordinate
differences. -/
def collides (santaPos : ℚ × ℚ) (santaR : ℚ) (o : Obj) : Prop :=
  Real.sqrt (((o.pos.1 - santaPos.1) ^ 2 + (o.pos.2 - santaPos.2) ^ 2 : ℚ)) <
    (((santaR + o.radius) * (17 / 10) : ℚ) : ℝ)

instance collidesDecidable (santaPos : ℚ × ℚ) (santaR : ℚ) (o : Obj) :
    Decidable (collides santaPos santaR o) :=
  decidable_of_iff
    (0 < (santaR + o.radius) * (17 / 10) ∧
      (o.pos.1 - santaPos.1) ^ 2 + (o.pos.2 - santaPos.2) ^ 2 <
        ((santaR + o.radius) * (17 / 10)) ^ 2)
    (by
      unfold collides
      constructor
      · rintro ⟨ht, hs⟩
        have ht2 : (0 : ℝ) < (((santaR + o.radius) * (17 / 10) : ℚ) : ℝ) := by exact_mod_cast ht
        exact (Real.sqrt_lt' ht2).mpr (by exact_mod_cast hs)
      · intro h
        have ht2 : (0 : ℝ) < (((santaR + o.radius) * (17 / 10) : ℚ) : ℝ) :=
          lt_of_le_of_lt (Real.sqrt_nonneg _) h
        refine ⟨by exact_mod_cast ht2, ?_⟩
        have hs := (Real.sqrt_lt' ht2).mp h
        exact_mod_cast hs)

/-- `detect_collisions_system` (src/main.rs lines 232-246): for every
queried object whose distance to the player is below the threshold, send
one event carrying the entity of the object. -/
def detect_collisions_system (santaPos : ℚ × ℚ) (santaR : ℚ) (objects : List Obj) : List ℕ :=
  ((objects.filter fun o => decide (collides santaPos santaR o)).map Obj.entity)

/-- `score_points_system` (src/main.rs lines 307-314): for each
present-collision event read, `score += 1` on the `u32` score. -/
def score_points_system (score : ℕ) (events : List ℕ) : ℕ :=
  events.foldl (fun s _ => (s + 1) % 2 ^ 32) score

/-- `speed_up_on_score` (src/main.rs lines 345-352): for each
present-collision event read, `speed += 50.0`. -/
def speed_up_on_score (speed : ℚ) (events : List ℕ) : ℚ :=
  events.foldl (fun s _ => s + 50) speed

/-- `take_lives_system` (src/main.rs lines 324-331): for each
snowflake-collision event read, `lives -= 1` on the `u32` lives counter,
unconditionally.  In `u32` arithmetic this wraps below zero (release
mode; a debug build panics), embedded as `+ (2 ^ 32 - 1)` modulo `2 ^ 32`. -/
def take_lives_system (lives : ℕ) (events : List ℕ) : ℕ :=
  events.foldl (fun l _ => (l + (2 ^ 32 - 1)) % 2 ^ 32) lives

/-- `remove_entity_on_collission_system` (src/main.rs lines 248-255): for
each event read, despawn the referenced entity. -/
def remove_entity_on_collission_system (world : List ℕ) (events : List ℕ) : List ℕ :=
  events.foldl (fun w e => w.filter fun x => x ≠ e) world

/-- Resource state touched by a present collision: the remaining present
entities, the score, and the shared speed. -/
structure PresentFrameState where
  presents : List ℕ
  score : ℕ
  speed : ℚ
  deriving DecidableEq

/-- The processing in one frame of present-collision events, in schedule order:
the `Update` systems `score_points_system` and `speed_up_on_score` consume
the events first, then the `PostUpdate` system
`remove_entity_on_collission_system` despawns the referenced presents
(src/main.rs lines 22-39). -/
def presentFrame (st : PresentFrameState) (events : List ℕ) : PresentFrameState :=
  let afterUpdate : PresentFrameState :=
    { st with
      score := score_points_system st.score events
      speed := speed_up_on_score st.speed events }
  { afterUpdate with
    presents := remove_entity_on_collission_system afterUpdate.presents events }

/-- `win_system` (src/main.rs lines 354-362): when the `Present` query is
empty, print "You win!" and send `AppExit::Success`.  Result: (exit
requested, lines printed). -/
def win_system (presentCount : ℕ) : Bool × List String :=
  if presentCount = 0 then (true, ["You win!"]) else (false, [])

/-- `loose_system` (src/main.rs lines 364-372): when lives equal 0, print
"You loose!" and send `AppExit::Success`.  Result: (exit requested, lines
printed). -/
def loose_system (lives : ℕ) : Bool × List String :=
  if lives = 0 then (true, ["You loose!"]) else (false, [])

/-- `loose_system` together with its `run_if(resource_changed::<Lives>)`
gate (src/main.rs line 38): the system body runs only on a frame where the
lives counter changed. -/
def loose_system_gated (livesChanged : Bool) (lives : ℕ) : Bool × List String :=
  if livesChanged then loose_system lives else (false, [])

/-- The processing in one frame of the lives counter: the `Update` system
`take_lives_system` consumes the snowflake-collision events, then the
`PostUpdate` evaluation `loose_system` runs under its
`resource_changed::<Lives>` gate.  The gate is open exactly when
`take_lives_system` wrote the resource this frame, that is when at least
one event was consumed.  Result: (new lives value, (exit requested, lines
printed)). -/
def livesFrame (lives : ℕ) (events : List ℕ) : ℕ × (Bool × List String) :=
  let newLives := take_lives_system lives events
  (newLives, loose_system_gated (!events.isEmpty) newLives)

/-- Position of a spawn candidate in `initialize_automovers`
(src/main.rs lines 86-93) from the two raw `fastrand::u32` draws:
`32.0 + draw` on each axis, with `draw` sampled from
`0 .. dimension - 32`. -/
def spawnCandidate (rx ry : ℕ) : ℚ × ℚ :=
  (32 + (rx : ℚ), 32 + (ry : ℚ))

/-- Acceptance test of the spawn rejection loop (src/main.rs lines 89-90):
the candidate is kept when its distance to the window center,
`((x - width/2)^2 + (y - height/2)^2).sqrt()`, exceeds `FREE_ZONE`. -/
def spawnAccepted (width height rx ry : ℕ) : Prop :=
  Real.sqrt ((((spawnCandidate rx ry).1 - (width : ℚ) / 2) ^ 2 +
      ((spawnCandidate rx ry).2 - (height : ℚ) / 2) ^ 2 : ℚ)) >
    ((FREE_ZONE : ℚ) : ℝ)

instance spawnAcceptedDecidable (width height rx ry : ℕ) :
    Decidable (spawnAccepted width height rx ry) :=
  decidable_of_iff
    (FREE_ZONE ^ 2 <
      (((spawnCandidate rx ry).1 - (width : ℚ) / 2) ^ 2 +
        ((spawnCandidate rx ry).2 - (height : ℚ) / 2) ^ 2))
    (by
      unfold spawnAccepted
      rw [gt_iff_lt, Real.lt_sqrt (by norm_num [FREE_ZONE])]
      constructor
      · intro h
        exact_mod_cast h
      · intro h
        exact_mod_cast h)

/-- Property that the direction vector assigned at src/main.rs line 95,
`Vec2::new(a, b).normalize()` with components `a / sqrt(a^2 + b^2)` and
`b / sqrt(a^2 + b^2)`, has length (`Vec2::length`, the square root of the
sum of squared components) equal to 1. -/
def normalizeDirUnit (a b : ℚ) : Prop :=
  Real.sqrt (((a : ℝ) / Real.sqrt ((a ^ 2 + b ^ 2 : ℚ))) ^ 2 +
      ((b : ℝ) / Real.sqrt ((a ^ 2 + b ^ 2 : ℚ))) ^ 2) = 1

/-- Property that both components of the direction vector assigned at
src/main.rs line 95, `Vec2::new(a, b).normalize()`, are non-negative. -/
def normalizeDirNonneg (a b : ℚ) : Prop :=
  0 ≤ (a : ℝ) / Real.sqrt ((a ^ 2 + b ^ 2 : ℚ)) ∧
    0 ≤ (b : ℝ) / Real.sqrt ((a ^ 2 + b ^ 2 : ℚ))

/-! Helper lemmas about the event folds. -/

theorem score_points_system_eq (events : List ℕ) :
    ∀ s : ℕ, s + events.length < 2 ^ 32 →
      score_points_system s events = s + events.length := by
  induction events with
  | nil => intro s _; simp [score_points_system]
  | cons e tl ih =>
    intro s h
    simp only [List.length_cons] at h
    have h1 : s + 1 < 2 ^ 32 := by omega
    unfold score_points_system at ih ⊢
    simp only [List.foldl_cons]
    rw [Nat.mod_eq_of_lt h1, ih (s + 1) (by omega)]
    simp only [List.length_cons]
    omega

theorem speed_up_on_score_eq (events : List ℕ) :
    ∀ s : ℚ, speed_up_on_score s events = s + 50 * events.length := by
  induction events with
  | nil => intro s; simp [speed_up_on_score]
  | cons e tl ih =>
    intro s
    unfold speed_up_on_score at ih ⊢
    simp only [List.foldl_cons, List.length_cons]
    rw [ih (s + 50)]
    push_cast
    ring

theorem remove_entity_subset (events : List ℕ) :
    ∀ (world : List ℕ) (x : ℕ),
      x ∈ remove_entity_on_collission_system world events → x ∈ world := by
  induction events with
  | nil =>
    intro world x h
    simpa [remove_entity_on_collission_system] using h
  | cons e tl ih =>
    intro world x h
    unfold remove_entity_on_collission_system at ih h
    simp only [List.foldl_cons] at h
    exact (List.mem_filter.mp (ih _ x h)).1

theorem remove_entity_removes (events : List ℕ) :
    ∀ (world : List ℕ) (e : ℕ), e ∈ events →
      e ∉ remove_entity_on_collission_system world events := by
  induction events with
  | nil => intro world e h; simp at h
  | cons a tl ih =>
    intro world e h hmem
    unfold remove_entity_on_collission_system at ih hmem
    simp only [List.foldl_cons] at hmem
    rcases List.mem_cons.mp h with he | he
    · subst he
      have hw := remove_entity_subset tl _ e hmem
      have := (List.mem_filter.mp hw).2
      simp at this
    · exact ih _ e he hmem

/-- Claim C8: each simulation step, for every auto-moving object, the new
position equals the old position plus direction times the shared speed
times the elapsed time, on both axes, and the movement rule changes
nothing besides positions (the direction is untouched). -/
theorem automoving_system_spec (speed dt : ℚ) (ms : List AutoMover) :
    automoving_system speed dt ms =
      ms.map fun m =>
        { pos := (m.pos.1 + m.dir.1 * speed * dt, m.pos.2 + m.dir.2 * speed * dt)
          dir := m.dir } := rfl

/-- Claim C7: for every auto-moving object each step, the bounce rule
negates the x direction component exactly when `x - half ≤ 0` or
`x + half ≥ width` (and likewise for y and the height), preserves the
magnitude of each component, may flip both axes in the same step
(componentwise independence), and changes nothing else (the position is
untouched). -/
theorem bounce_automovers_system_spec (width height : ℚ) (ms : List AutoMover) (m : AutoMover) :
    (bounce_automovers_system width height ms =
      ms.map fun a =>
        { pos := a.pos
          dir :=
            ((if a.pos.1 - 32 / 2 ≤ 0 ∨ a.pos.1 + 32 / 2 ≥ width then -a.dir.1 else a.dir.1),
              (if a.pos.2 - 32 / 2 ≤ 0 ∨ a.pos.2 + 32 / 2 ≥ height then -a.dir.2 else a.dir.2)) }) ∧
    |(bounceStep width height m).dir.1| = |m.dir.1| ∧
    |(bounceStep width height m).dir.2| = |m.dir.2| ∧
    (bounceStep width height m).pos = m.pos := by
  refine ⟨rfl, ?_, ?_, rfl⟩ <;>
    · simp only [bounceStep]
      split_ifs <;> simp [abs_neg]

/-- Claim C3: the collision detector emits one event per queried object,
carrying the entity of that object, exactly for the objects whose
Euclidean distance to the player is strictly below
`(player_radius + object_radius) * 1.7`. -/
theorem detect_collisions_system_spec (santaPos : ℚ × ℚ) (santaR : ℚ) (objects : List Obj) :
    (∀ e : ℕ,
      e ∈ detect_collisions_system santaPos santaR objects ↔
        ∃ o, o ∈ objects ∧ o.entity = e ∧ collides santaPos santaR o) ∧
    (detect_collisions_system santaPos santaR objects).length =
      objects.countP fun o => decide (collides santaPos santaR o) := by
  constructor
  · intro e
    unfold detect_collisions_system
    simp only [List.mem_map, List.mem_filter, decide_eq_true_eq]
    constructor
    · rintro ⟨o, ⟨ho, hc⟩, he⟩
      exact ⟨o, ho, he, hc⟩
    · rintro ⟨o, ho, he, hc⟩
      exact ⟨o, ⟨ho, hc⟩, he⟩
  · unfold detect_collisions_system
    rw [List.length_map, ← List.countP_eq_length_filter]

/-- Behaviour of one axis of `move_santa_system` whose branches run in the
order subtract-then-add (the x axis: left, then right). -/
theorem santa_axis_sub_add (A B : Prop) [Decidable A] [Decidable B]
    (lo hi s x0 x1 x2 : ℚ) (hs : 0 ≤ s)
    (h1 : x1 = if A ∧ x0 > lo then x0 - s else x0)
    (h2 : x2 = if B ∧ x1 < hi then x1 + s else x1) :
    |x2 - x0| ≤ s ∧
    (x2 < x0 → lo < x0) ∧
    (x0 < x2 → x0 < hi) ∧
    (lo ≤ x0 → x2 < lo → lo - x2 < s) ∧
    (x0 ≤ hi → hi < x2 → x2 - hi < s) ∧
    (lo ≤ x0 → x0 ≤ hi → lo - s ≤ x2 ∧ x2 ≤ hi + s) := by
  by_cases hA : A ∧ x0 > lo
  · rw [if_pos hA] at h1
    obtain ⟨-, hA2⟩ := hA
    by_cases hB : B ∧ x1 < hi
    · rw [if_pos hB] at h2
      obtain ⟨-, hB2⟩ := hB
      subst h1
      subst h2
      refine ⟨?_, ?_, ?_, ?_, ?_, ?_⟩ <;> intros <;>
        first
          | (rw [abs_le]; constructor <;> linarith)
          | (constructor <;> linarith)
          | linarith
    · rw [if_neg hB] at h2
      subst h1
      subst h2
      refine ⟨?_, ?_, ?_, ?_, ?_, ?_⟩ <;> intros <;>
        first
          | (rw [abs_le]; constructor <;> linarith)
          | (constructor <;> linarith)
          | linarith
  · rw [if_neg hA] at h1
    by_cases hB : B ∧ x1 < hi
    · rw [if_pos hB] at h2
      obtain ⟨-, hB2⟩ := hB
      subst h1
      subst h2
      refine ⟨?_, ?_, ?_, ?_, ?_, ?_⟩ <;> intros <;>
        first
          | (rw [abs_le]; constructor <;> linarith)
          | (constructor <;> linarith)
          | linarith
    · rw [if_neg hB] at h2
      subst h1
      subst h2
      refine ⟨?_, ?_, ?_, ?_, ?_, ?_⟩ <;> intros <;>
        first
          | (rw [abs_le]; constructor <;> linarith)
          | (constructor <;> linarith)
          | linarith

/-- Behaviour of one axis of `move_santa_system` whose branches run in the
order add-then-subtract (the y axis: up, then down). -/
theorem santa_axis_add_sub (A B : Prop) [Decidable A] [Decidable B]
    (lo hi s y0 y1 y2 : ℚ) (hs : 0 ≤ s)
    (h1 : y1 = if A ∧ y0 < hi then y0 + s else y0)
    (h2 : y2 = if B ∧ y1 > lo then y1 - s else y1) :
    |y2 - y0| ≤ s ∧
    (y2 < y0 → lo < y0) ∧
    (y0 < y2 → y0 < hi) ∧
    (lo ≤ y0 → y2 < lo → lo - y2 < s) ∧
    (y0 ≤ hi → hi < y2 → y2 - hi < s) ∧
    (lo ≤ y0 → y0 ≤ hi → lo - s ≤ y2 ∧ y2 ≤ hi + s) := by
  by_cases hA : A ∧ y0 < hi
  · rw [if_pos hA] at h1
    obtain ⟨-, hA2⟩ := hA
    by_cases hB : B ∧ y1 > lo
    · rw [if_pos hB] at h2
      obtain ⟨-, hB2⟩ := hB
      subst h1
      subst h2
      refine ⟨?_, ?_, ?_, ?_, ?_, ?_⟩ <;> intros <;>
        first
          | (rw [abs_le]; constructor <;> linarith)
          | (constructor <;> linarith)
          | linarith
    · rw [if_neg hB] at h2
      subst h1
      subst h2
      refine ⟨?_, ?_, ?_, ?_, ?_, ?_⟩ <;> intros <;>
        first
          | (rw [abs_le]; constructor <;> linarith)
          | (constructor <;> linarith)
          | linarith
  · rw [if_neg hA] at h1
    by_cases hB : B ∧ y1 > lo
    · rw [if_pos hB] at h2
      obtain ⟨-, hB2⟩ := hB
      subst h1
      subst h2
      refine ⟨?_, ?_, ?_, ?_, ?_, ?_⟩ <;> intros <;>
        first
          | (rw [abs_le]; constructor <;> linarith)
          | (constructor <;> linarith)
          | linarith
    · rw [if_neg hB] at h2
      subst h1
      subst h2
      refine ⟨?_, ?_, ?_, ?_, ?_, ?_⟩ <;> intros <;>
        first
          | (rw [abs_le]; constructor <;> linarith)
          | (constructor <;> linarith)
          | linarith

/-- Claim C1 (counterexample): starting inside the legal interval at
x = 780 with only the right arrow held, one run of `move_santa_system`
with window 800 x 600, speed 100 and elapsed time 1/10 moves the player
to x = 790, which is outside [16, 800 - 16]: the guard tests the current
position against the bound, not the resulting position. -/
theorem move_santa_system_escapes_interval :
    (32 / 2 ≤ (780 : ℚ) ∧ (780 : ℚ) ≤ 800 - 32 / 2 ∧
      32 / 2 ≤ (300 : ℚ) ∧ (300 : ℚ) ≤ 600 - 32 / 2) ∧
    move_santa_system 800 600 100 (1 / 10)
        ⟨false, false, true, false, false, false, false, false⟩ (780, 300) = (790, 300) ∧
    ¬ ((move_santa_system 800 600 100 (1 / 10)
        ⟨false, false, true, false, false, false, false, false⟩ (780, 300)).1 ≤ 800 - 32 / 2) := by
  refine ⟨by norm_num, by norm_num [move_santa_system], by norm_num [move_santa_system]⟩

/-- Claim C1 (amended): after `move_santa_system` runs from a position
inside [half, width - half] x [half, height - half], each axis moves only
when the current coordinate is strictly inside the bound on the side being
moved toward, so the resulting position stays within that interval
enlarged by `speed * dt` on every side (it can overshoot the nominal
interval by at most one step). -/
theorem move_santa_system_clamped (width height speed dt : ℚ) (keys : KeyState) (p : ℚ × ℚ)
    (hs : 0 ≤ speed * dt)
    (hx1 : 32 / 2 ≤ p.1) (hx2 : p.1 ≤ width - 32 / 2)
    (hy1 : 32 / 2 ≤ p.2) (hy2 : p.2 ≤ height - 32 / 2) :
    32 / 2 - speed * dt ≤ (move_santa_system width height speed dt keys p).1 ∧
    (move_santa_system width height speed dt keys p).1 ≤ width - 32 / 2 + speed * dt ∧
    32 / 2 - speed * dt ≤ (move_santa_system width height speed dt keys p).2 ∧
    (move_santa_system width height speed dt keys p).2 ≤ height - 32 / 2 + speed * dt := by
  have hx := (santa_axis_sub_add ((keys.arrowLeft || keys.keyJ) = true)
      ((keys.arrowRight || keys.keyL) = true) (32 / 2) (width - 32 / 2) (speed * dt)
      p.1 _ _ hs rfl rfl).2.2.2.2.2 hx1 hx2
  have hy := (santa_axis_add_sub ((keys.arrowUp || keys.keyI) = true)
      ((keys.arrowDown || keys.keyK) = true) (32 / 2) (height - 32 / 2) (speed * dt)
      p.2 _ _ hs rfl rfl).2.2.2.2.2 hy1 hy2
  dsimp only [move_santa_system]
  exact ⟨hx.1, hx.2, hy.1, hy.2⟩

/-- Claim C1 (amended) at a concrete input: from the window center of an
800 x 600 window with the left-arrow key held, a step of speed 100 and
elapsed time 1/10 stays within the enlarged interval. -/
theorem move_santa_system_clamped_witness :
    ((0 : ℚ) ≤ 100 * (1 / 10) ∧
      32 / 2 ≤ (400 : ℚ) ∧ (400 : ℚ) ≤ 800 - 32 / 2 ∧
      32 / 2 ≤ (300 : ℚ) ∧ (300 : ℚ) ≤ 600 - 32 / 2) ∧
    (32 / 2 - 100 * (1 / 10) ≤
        (move_santa_system 800 600 100 (1 / 10)
          ⟨true, false, false, false, false, false, false, false⟩ (400, 300)).1 ∧
      (move_santa_system 800 600 100 (1 / 10)
          ⟨true, false, false, false, false, false, false, false⟩ (400, 300)).1 ≤
        800 - 32 / 2 + 100 * (1 / 10) ∧
      32 / 2 - 100 * (1 / 10) ≤
        (move_santa_system 800 600 100 (1 / 10)
          ⟨true, false, false, false, false, false, false, false⟩ (400, 300)).2 ∧
      (move_santa_system 800 600 100 (1 / 10)
          ⟨true, false, false, false, false, false, false, false⟩ (400, 300)).2 ≤
        600 - 32 / 2 + 100 * (1 / 10)) :=
  ⟨⟨by norm_num, by norm_num, by norm_num, by norm_num, by norm_num⟩,
    move_santa_system_clamped 800 600 100 (1 / 10)
      ⟨true, false, false, false, false, false, false, false⟩ (400, 300)
      (by norm_num) (by norm_num) (by norm_num) (by norm_num) (by norm_num)⟩

/-- Claim C9: in every frame each player coordinate changes by at most
`speed * dt` in absolute value; a coordinate decreases only when it was
strictly above the lower half-extent bound and increases only when it was
strictly below the upper one; hence from a position inside the legal
interval one step can exceed a screen bound only by strictly less than
`speed * dt`. -/
theorem move_santa_system_step_spec (width height speed dt : ℚ) (keys : KeyState) (p q : ℚ × ℚ)
    (hs : 0 ≤ speed * dt)
    (hq : q = move_santa_system width height speed dt keys p) :
    |q.1 - p.1| ≤ speed * dt ∧
    |q.2 - p.2| ≤ speed * dt ∧
    (q.1 < p.1 → 32 / 2 < p.1) ∧
    (p.1 < q.1 → p.1 < width - 32 / 2) ∧
    (q.2 < p.2 → 32 / 2 < p.2) ∧
    (p.2 < q.2 → p.2 < height - 32 / 2) ∧
    (32 / 2 ≤ p.1 → q.1 < 32 / 2 → 32 / 2 - q.1 < speed * dt) ∧
    (p.1 ≤ width - 32 / 2 → width - 32 / 2 < q.1 → q.1 - (width - 32 / 2) < speed * dt) ∧
    (32 / 2 ≤ p.2 → q.2 < 32 / 2 → 32 / 2 - q.2 < speed * dt) ∧
    (p.2 ≤ height - 32 / 2 → height - 32 / 2 < q.2 → q.2 - (height - 32 / 2) < speed * dt) := by
  have hx := santa_axis_sub_add ((keys.arrowLeft || keys.keyJ) = true)
      ((keys.arrowRight || keys.keyL) = true) (32 / 2) (width - 32 / 2) (speed * dt)
      p.1 _ _ hs rfl rfl
  have hy := santa_axis_add_sub ((keys.arrowUp || keys.keyI) = true)
      ((keys.arrowDown || keys.keyK) = true) (32 / 2) (height - 32 / 2) (speed * dt)
      p.2 _ _ hs rfl rfl
  subst hq
  dsimp only [move_santa_system]
  exact ⟨hx.1, hy.1, hx.2.1, hx.2.2.1, hy.2.1, hy.2.2.1, hx.2.2.2.1, hx.2.2.2.2.1,
    hy.2.2.2.1, hy.2.2.2.2.1⟩

/-- Claim C9 at a concrete input: the step of the C1 counterexample
overshoots the right screen bound by 6, which is strictly less than the
step length 10. -/
theorem move_santa_system_step_spec_witness :
    ((0 : ℚ) ≤ 100 * (1 / 10) ∧
      ((790 : ℚ), (300 : ℚ)) = move_santa_system 800 600 100 (1 / 10)
        ⟨false, false, true, false, false, false, false, false⟩ (780, 300)) ∧
    (|(790 : ℚ) - 780| ≤ 100 * (1 / 10) ∧
      |(300 : ℚ) - 300| ≤ 100 * (1 / 10) ∧
      ((790 : ℚ) < 780 → 32 / 2 < (780 : ℚ)) ∧
      ((780 : ℚ) < 790 → (780 : ℚ) < 800 - 32 / 2) ∧
      ((300 : ℚ) < 300 → 32 / 2 < (300 : ℚ)) ∧
      ((300 : ℚ) < 300 → (300 : ℚ) < 600 - 32 / 2) ∧
      (32 / 2 ≤ (780 : ℚ) → (790 : ℚ) < 32 / 2 → (32 : ℚ) / 2 - 790 < 100 * (1 / 10)) ∧
      ((780 : ℚ) ≤ 800 - 32 / 2 → 800 - 32 / 2 < (790 : ℚ) →
        (790 : ℚ) - (800 - 32 / 2) < 100 * (1 / 10)) ∧
      (32 / 2 ≤ (300 : ℚ) → (300 : ℚ) < 32 / 2 → (32 : ℚ) / 2 - 300 < 100 * (1 / 10)) ∧
      ((300 : ℚ) ≤ 600 - 32 / 2 → 600 - 32 / 2 < (300 : ℚ) →
        (300 : ℚ) - (600 - 32 / 2) < 100 * (1 / 10))) :=
  ⟨⟨by norm_num, by norm_num [move_santa_system]⟩,
    move_santa_system_step_spec 800 600 100 (1 / 10)
      ⟨false, false, true, false, false, false, false, false⟩ (780, 300) (790, 300)
      (by norm_num) (by norm_num [move_santa_system])⟩

/-- Claim C2 (code bug): `take_lives_system` decrements the `u32` lives
counter unconditionally, so consuming a snowflake-collision event while
lives is already 0 wraps the counter around to `2 ^ 32 - 1` instead of
leaving it at 0 as the specification requires. -/
theorem take_lives_system_underflows :
    take_lives_system 0 [7] = 2 ^ 32 - 1 ∧ take_lives_system 0 [7] ≠ 0 := by
  refine ⟨rfl, by decide⟩

/-- Claim C4: for every present-collision event consumed in a frame, the
score increases by exactly 1 and the shared speed by exactly 50, both
computed from the pre-frame state, and every present referenced by an
event is removed from the world in the same frame by the `PostUpdate`
removal that runs after the effect systems (the frame removes nothing
else). -/
theorem present_frame_spec (st : PresentFrameState) (events : List ℕ)
    (hs : st.score + events.length < 2 ^ 32) :
    (presentFrame st events).score = st.score + events.length ∧
    (presentFrame st events).speed = st.speed + 50 * events.length ∧
    (∀ e ∈ events, e ∉ (presentFrame st events).presents) ∧
    (∀ x ∈ (presentFrame st events).presents, x ∈ st.presents) := by
  refine ⟨?_, ?_, ?_, ?_⟩
  · exact score_points_system_eq events st.score hs
  · exact speed_up_on_score_eq events st.speed
  · intro e he
    exact remove_entity_removes events _ e he
  · intro x hx
    exact remove_entity_subset events _ x hx

/-- Claim C4 at a concrete input: two events on a state with presents
[1, 2, 3], score 0 and speed 100 give score 2, speed 200, and remove the
presents 1 and 2. -/
theorem present_frame_spec_witness :
    ((0 : ℕ) + [1, 2].length < 2 ^ 32) ∧
    ((presentFrame ⟨[1, 2, 3], 0, 100⟩ [1, 2]).score = 0 + [1, 2].length ∧
      (presentFrame ⟨[1, 2, 3], 0, 100⟩ [1, 2]).speed = 100 + 50 * [1, 2].length ∧
      (∀ e ∈ [1, 2], e ∉ (presentFrame ⟨[1, 2, 3], 0, 100⟩ [1, 2]).presents) ∧
      (∀ x ∈ (presentFrame ⟨[1, 2, 3], 0, 100⟩ [1, 2]).presents, x ∈ [1, 2, 3])) :=
  ⟨by norm_num, present_frame_spec ⟨[1, 2, 3], 0, 100⟩ [1, 2] (by norm_num)⟩

/-- Claim C5: the win evaluation exits with "You win!" exactly when no
presents remain; the loss evaluation exits with "You loose!" on the frame
where the lives counter reaches 0 (reaching 0 from a nonzero value means
the counter was written, so the resource_changed gate is open); and when
neither count is zero the evaluation requests no exit, prints nothing and
leaves the lives value exactly as the event fold produced it. -/
theorem win_loose_systems_spec (presentCount lives : ℕ) (events : List ℕ) :
    (presentCount = 0 → win_system presentCount = (true, ["You win!"])) ∧
    (presentCount ≠ 0 → win_system presentCount = (false, [])) ∧
    (lives ≠ 0 → take_lives_system lives events = 0 →
      (livesFrame lives events).2 = (true, ["You loose!"])) ∧
    (take_lives_system lives events ≠ 0 →
      (livesFrame lives events).2 = (false, []) ∧
      (livesFrame lives events).1 = take_lives_system lives events) := by
  refine ⟨?_, ?_, ?_, ?_⟩
  · intro h
    simp [win_system, h]
  · intro h
    simp [win_system, h]
  · intro hl h0
    have hev : events.isEmpty = false := by
      cases events with
      | nil =>
        exfalso
        apply hl
        simpa [take_lives_system] using h0
      | cons a tl => rfl
    simp [livesFrame, loose_system_gated, loose_system, hev, h0]
  · intro hne
    cases hev : events.isEmpty with
    | true => simp [livesFrame, loose_system_gated, hev]
    | false => simp [livesFrame, loose_system_gated, loose_system, hev, hne]

/-- Claim C5 at concrete inputs: zero presents win, lives reaching 0 from
1 loses, and five presents with three lives and no events change nothing
and request no exit. -/
theorem win_loose_systems_spec_witness :
    win_system 0 = (true, ["You win!"]) ∧
    ((1 : ℕ) ≠ 0 ∧ take_lives_system 1 [7] = 0 ∧
      (livesFrame 1 [7]).2 = (true, ["You loose!"])) ∧
    ((5 : ℕ) ≠ 0 ∧ win_system 5 = (false, [])) ∧
    (take_lives_system 3 [] ≠ 0 ∧ (livesFrame 3 []).2 = (false, []) ∧
      (livesFrame 3 []).1 = take_lives_system 3 []) :=
  ⟨(win_loose_systems_spec 0 1 [7]).1 rfl,
    ⟨by decide, by decide,
      (win_loose_systems_spec 0 1 [7]).2.2.1 (by decide) (by decide)⟩,
    ⟨by decide, (win_loose_systems_spec 5 1 []).2.1 (by decide)⟩,
    ⟨by decide, (win_loose_systems_spec 5 3 []).2.2.2 (by decide)⟩⟩

/-- Claim C6 (counterexample): with an 800 x 600 window the raw draws
(767, 268) are in the sampling ranges (767 < 800 - 32, 268 < 600 - 32)
and are accepted by the rejection loop (distance 399 from the center),
yet the resulting position x = 32 + 767 = 799 lies outside the window
rectangle inset by half the sprite size on every side (it violates
x ≤ 800 - 16): the sampling insets by the full sprite size only on the
low side of each axis. -/
theorem initialize_automovers_escapes_inset :
    ((767 : ℕ) < 800 - 32 ∧ (268 : ℕ) < 600 - 32) ∧
    spawnAccepted 800 600 767 268 ∧
    (spawnCandidate 767 268).1 = 799 ∧
    ¬ ((spawnCandidate 767 268).1 ≤ (800 : ℚ) - 32 / 2) := by
  refine ⟨by norm_num, ?_, by norm_num [spawnCandidate], by norm_num [spawnCandidate]⟩
  unfold spawnAccepted
  rw [gt_iff_lt, Real.lt_sqrt (by norm_num [FREE_ZONE])]
  have h : (FREE_ZONE ^ 2 : ℚ) <
      ((spawnCandidate 767 268).1 - ((800 : ℕ) : ℚ) / 2) ^ 2 +
        ((spawnCandidate 767 268).2 - ((600 : ℕ) : ℚ) / 2) ^ 2 := by
    norm_num [spawnCandidate, FREE_ZONE]
  exact_mod_cast h

/-- Claim C6 (amended): every accepted spawn position lies within
[32, dimension - 1] on each axis (the window rectangle inset by the full
sprite size on the left and bottom and by at least one unit on the right
and top), and its squared distance from the window center exceeds
FREE_ZONE squared, that is, its distance from the center is strictly
greater than the 200-unit exclusion radius. -/
theorem initialize_automovers_position_spec (width height rx ry : ℕ)
    (hrx : rx < width - 32) (hry : ry < height - 32)
    (hacc : spawnAccepted width height rx ry) :
    (32 ≤ (spawnCandidate rx ry).1 ∧ (spawnCandidate rx ry).1 ≤ (width : ℚ) - 1) ∧
    (32 ≤ (spawnCandidate rx ry).2 ∧ (spawnCandidate rx ry).2 ≤ (height : ℚ) - 1) ∧
    FREE_ZONE ^ 2 <
      ((spawnCandidate rx ry).1 - (width : ℚ) / 2) ^ 2 +
        ((spawnCandidate rx ry).2 - (height : ℚ) / 2) ^ 2 := by
  have hxq : (rx : ℚ) + 33 ≤ (width : ℚ) := by
    have h : rx + 33 ≤ width := by omega
    exact_mod_cast h
  have hyq : (ry : ℚ) + 33 ≤ (height : ℚ) := by
    have h : ry + 33 ≤ height := by omega
    exact_mod_cast h
  have hrx0 : (0 : ℚ) ≤ (rx : ℚ) := Nat.cast_nonneg rx
  have hry0 : (0 : ℚ) ≤ (ry : ℚ) := Nat.cast_nonneg ry
  refine ⟨⟨?_, ?_⟩, ⟨?_, ?_⟩, ?_⟩
  · simp only [spawnCandidate]
    linarith
  · simp only [spawnCandidate]
    linarith
  · simp only [spawnCandidate]
    linarith
  · simp only [spawnCandidate]
    linarith
  · unfold spawnAccepted at hacc
    rw [gt_iff_lt, Real.lt_sqrt (by norm_num [FREE_ZONE])] at hacc
    exact_mod_cast hacc

/-- Claim C6 (amended) at a concrete input: the accepted draws (700, 268)
for an 800 x 600 window give the position (732, 300), inside the stated
rectangle and at squared distance 110224 > 40000 from the center. -/
theorem initialize_automovers_position_spec_witness :
    ((700 : ℕ) < 800 - 32 ∧ (268 : ℕ) < 600 - 32 ∧ spawnAccepted 800 600 700 268) ∧
    ((32 ≤ (spawnCandidate 700 268).1 ∧ (spawnCandidate 700 268).1 ≤ ((800 : ℕ) : ℚ) - 1) ∧
      (32 ≤ (spawnCandidate 700 268).2 ∧ (spawnCandidate 700 268).2 ≤ ((600 : ℕ) : ℚ) - 1) ∧
      FREE_ZONE ^ 2 <
        ((spawnCandidate 700 268).1 - ((800 : ℕ) : ℚ) / 2) ^ 2 +
          ((spawnCandidate 700 268).2 - ((600 : ℕ) : ℚ) / 2) ^ 2) :=
  ⟨⟨by norm_num, by norm_num, by
      unfold spawnAccepted
      rw [gt_iff_lt, Real.lt_sqrt (by norm_num [FREE_ZONE])]
      have h : (FREE_ZONE ^ 2 : ℚ) <
          ((spawnCandidate 700 268).1 - ((800 : ℕ) : ℚ) / 2) ^ 2 +
            ((spawnCandidate 700 268).2 - ((600 : ℕ) : ℚ) / 2) ^ 2 := by
        norm_num [spawnCandidate, FREE_ZONE]
      exact_mod_cast h⟩,
    initialize_automovers_position_spec 800 600 700 268 (by norm_num) (by norm_num) (by
      unfold spawnAccepted
      rw [gt_iff_lt, Real.lt_sqrt (by norm_num [FREE_ZONE])]
      have h : (FREE_ZONE ^ 2 : ℚ) <
          ((spawnCandidate 700 268).1 - ((800 : ℕ) : ℚ) / 2) ^ 2 +
            ((spawnCandidate 700 268).2 - ((600 : ℕ) : ℚ) / 2) ^ 2 := by
        norm_num [spawnCandidate, FREE_ZONE]
      exact_mod_cast h)⟩

/-- Claim C10 (counterexample): the draw pair (0, 0) lies in the sampling
range [0, 1) of `fastrand::f32`, and normalizing the zero vector does not
give a unit-length direction: the embedded total division yields the zero
vector of length 0 (the f32 computation yields NaN), not length 1. -/
theorem normalize_zero_draw_not_unit :
    ((0 : ℚ) ≤ 0 ∧ (0 : ℚ) < 1) ∧ ¬ normalizeDirUnit 0 0 := by
  refine ⟨by norm_num, ?_⟩
  unfold normalizeDirUnit
  norm_num

/-- Claim C10 (amended): for every pair of draws in [0, 1) other than the
zero pair, the assigned direction vector has unit length and both
components non-negative, so such an auto-mover starts moving neither
leftward nor downward. -/
theorem normalizeDir_unit_nonneg (a b : ℚ)
    (ha : 0 ≤ a) (ha1 : a < 1) (hb : 0 ≤ b) (hb1 : b < 1)
    (hne : ¬(a = 0 ∧ b = 0)) :
    normalizeDirUnit a b ∧ normalizeDirNonneg a b := by
  have hs : 0 < a ^ 2 + b ^ 2 := by
    rcases not_and_or.mp hne with h | h
    · have ha2 : 0 < a := lt_of_le_of_ne ha (Ne.symm h)
      nlinarith [sq_nonneg b]
    · have hb2 : 0 < b := lt_of_le_of_ne hb (Ne.symm h)
      nlinarith [sq_nonneg a]
  have hsR : (0 : ℝ) < ((a ^ 2 + b ^ 2 : ℚ) : ℝ) := by exact_mod_cast hs
  constructor
  · unfold normalizeDirUnit
    have hsum : ((a : ℝ) / Real.sqrt ((a ^ 2 + b ^ 2 : ℚ))) ^ 2 +
        ((b : ℝ) / Real.sqrt ((a ^ 2 + b ^ 2 : ℚ))) ^ 2 = 1 := by
      rw [div_pow, div_pow, div_add_div_same, Real.sq_sqrt (le_of_lt hsR),
        div_eq_one_iff_eq (ne_of_gt hsR)]
      push_cast
      ring
    rw [hsum, Real.sqrt_one]
  · exact ⟨div_nonneg (by exact_mod_cast ha) (Real.sqrt_nonneg _),
      div_nonneg (by exact_mod_cast hb) (Real.sqrt_nonneg _)⟩

/-- Claim C10 (amended) at a concrete input: the draw pair (1/2, 1/2) is
normalized to a unit-length direction with non-negative components. -/
theorem normalizeDir_unit_nonneg_witness :
    ((0 : ℚ) ≤ 1 / 2 ∧ (1 / 2 : ℚ) < 1 ∧ ¬((1 / 2 : ℚ) = 0 ∧ (1 / 2 : ℚ) = 0)) ∧
    (normalizeDirUnit (1 / 2) (1 / 2) ∧ normalizeDirNonneg (1 / 2) (1 / 2)) :=
  ⟨⟨by norm_num, by norm_num, by norm_num⟩,
    normalizeDir_unit_nonneg (1 / 2) (1 / 2) (by norm_num) (by norm_num) (by norm_num)
      (by norm_num) (by norm_num)⟩

end SantaDemo
